import Mathlib

/-!
Shallow embedding of the post-visibility and ownership-authorization policy of
the blogicum application (src/blogicum/blog/views.py, src/blogicum/users/views.py).

The database is modelled as lists of records; Django querysets become list
filters, `get_object_or_404` becomes `List.find?` returning `Option` (with
`none` standing for the 404/NotFound outcome), and `order_by('-pub_date')`
becomes an insertion sort on the publish timestamp, descending.   Django model
instances compare by primary key, so record identity throughout is the `id`
field; `request.user` is a `Viewer` that is either anonymous or an
authenticated `User`.
-/

namespace Blogicum

/-- Modelled from the spec: the identity record (Profile) of §3 — models.py is
not under src/, so fields follow the spec: username (unique, public key) plus
a numeric identity used as primary key. -/
structure User where
  id : Nat
  username : String
deriving DecidableEq, Repr

/-- The current principal: Django's `request.user`, either `AnonymousUser`
(never equal to any stored `User`) or an authenticated account. -/
inductive Viewer where
  | anonymous : Viewer
  | authenticated : User → Viewer
deriving DecidableEq, Repr

/-- Modelled from the spec: Category of §3 — id, unique slug, `is_published`
flag (models.py is not under src/). -/
structure Category where
  id : Nat
  slug : String
  is_published : Bool
deriving DecidableEq, Repr

/-- Modelled from the spec: Post of §3 — id, publish timestamp, `is_published`
flag, owning author identity, optional (nullable) category reference
(models.py is not under src/).  Timestamps are integers, `pub_date ≤ now`
standing for `pub_date__lte=timezone.now()`. -/
structure Post where
  id : Nat
  author : Nat
  categoryId : Option Nat
  is_published : Bool
  pub_date : Int
  title : String
  text : String
deriving DecidableEq, Repr

/-- Modelled from the spec: Comment of §3 — id, text, author identity, owning
post; the comment model carries no publication flag (models.py is not under
src/). -/
structure Comment where
  id : Nat
  author : Nat
  postId : Nat
  text : String
deriving DecidableEq, Repr

/-- The persistence backend: the stored records. -/
structure DB where
  posts : List Post
  categories : List Category
  comments : List Comment
deriving Repr

/-- Primary keys of stored posts are pairwise distinct. -/
abbrev DB.postsOk (db : DB) : Prop :=
  db.posts.Pairwise (fun a b => a.id ≠ b.id)

/-- Primary keys and slugs of stored categories are pairwise distinct
(the spec declares slug unique). -/
abbrev DB.categoriesOk (db : DB) : Prop :=
  db.categories.Pairwise (fun a b => a.id ≠ b.id) ∧
    db.categories.Pairwise (fun a b => a.slug ≠ b.slug)

/-- Primary keys of stored comments are pairwise distinct. -/
abbrev DB.commentsOk (db : DB) : Prop :=
  db.comments.Pairwise (fun a b => a.id ≠ b.id)

/-- Category lookup by primary key (the foreign-key join target). -/
def DB.findCategory (db : DB) (cid : Nat) : Option Category :=
  db.categories.find? (fun c => c.id == cid)

/-- Django's `category__is_published=True` filter condition: the ORM joins
through the foreign key, so a post whose `category` is null (or dangling)
produces no join row and the condition is false for it. -/
def categoryPublished (db : DB) (p : Post) : Bool :=
  match p.categoryId with
  | none => false
  | some cid =>
    match db.findCategory cid with
    | none => false
    | some c => c.is_published

/-- The queryset filter `is_published=True, category__is_published=True,
pub_date__lte=timezone.now()` shared by `IndexView.get_queryset`,
`post_detail` and the non-author branch of `PostDetailView.get_object`. -/
def publicFilter (db : DB) (now : Int) (p : Post) : Bool :=
  p.is_published && categoryPublished db p && decide (p.pub_date ≤ now)

/-- Modelled from the spec: the contract of §4.1 in the spec's own words,
`is_publicly_visible(post, now) = post.is_published AND (post.category is
null OR post.category.is_published) AND post.publish_timestamp <= now`,
kept separate from `publicFilter` (the coded filter) for comparison. -/
def is_publicly_visible_spec (db : DB) (now : Int) (p : Post) : Bool :=
  p.is_published &&
    (match p.categoryId with
     | none => true
     | some cid =>
       match db.findCategory cid with
       | none => false
       | some c => c.is_published) &&
    decide (p.pub_date ≤ now)

/-- Does the viewer equal the stored user with identity `authorId`?  Django
compares model instances by primary key, and `AnonymousUser` is never equal
to a stored `User`; this is `request.user.is_authenticated and
request.user == author` in one step. -/
def Viewer.isUser (v : Viewer) (authorId : Nat) : Bool :=
  match v with
  | .anonymous => false
  | .authenticated u => u.id == authorId

/-- Equality test `request.user == profile_user` between the viewer and a
stored user record (by primary key; anonymous compares unequal). -/
def Viewer.equalsUser (v : Viewer) (w : User) : Bool :=
  match v with
  | .anonymous => false
  | .authenticated u => u.id == w.id

/-- Insert a post into a list sorted by `pub_date` descending. -/
def insertByDateDesc (p : Post) : List Post → List Post
  | [] => [p]
  | q :: rest =>
    if q.pub_date ≤ p.pub_date then p :: q :: rest
    else q :: insertByDateDesc p rest

/-- The queryset modifier `order_by('-pub_date')`: sort by publish timestamp
descending. -/
def orderByPubDateDesc (l : List Post) : List Post :=
  l.foldr insertByDateDesc []

/-- IndexView.get_queryset: all posts passing the public filter, ordered by
`pub_date` descending. -/
def IndexView.get_queryset (db : DB) (now : Int) : List Post :=
  orderByPubDateDesc (db.posts.filter (publicFilter db now))

/-- The function-based detail view `post_detail`: `get_object_or_404(Post,
id=id, is_published=True, category__is_published=True, pub_date__lte=now)`;
`none` is the 404 outcome. -/
def post_detail (db : DB) (now : Int) (id : Nat) : Option Post :=
  db.posts.find? (fun p => p.id == id && publicFilter db now p)

/-- The category listing (`category_posts`; `CategoryPostView.get_queryset`
applies the identical lookup and filter): `get_object_or_404(Category,
slug=category_slug, is_published=True)`, then the posts of that category
passing `is_published=True, pub_date__lte=now`, ordered by `pub_date`
descending.  `none` is the 404 outcome. -/
def category_posts (db : DB) (now : Int) (category_slug : String) :
    Option (Category × List Post) :=
  match db.categories.find? (fun c => c.slug == category_slug && c.is_published) with
  | none => none
  | some category =>
    some (category,
      orderByPubDateDesc (db.posts.filter
        (fun p => p.categoryId == some category.id
          && p.is_published && decide (p.pub_date ≤ now))))

/-- PostDetailView.get_object: fetch the post by pk (404 if absent); then,
unless the viewer is authenticated and equal to the post's author, re-fetch
with the public filter (404 if it fails); the author receives the post
unconditionally. -/
def PostDetailView.get_object (db : DB) (viewer : Viewer) (now : Int)
    (post_id : Nat) : Option Post :=
  match db.posts.find? (fun p => p.id == post_id) with
  | none => none
  | some post =>
    if !(viewer.isUser post.author) then
      db.posts.find? (fun p => p.id == post_id && publicFilter db now p)
    else
      some post

/-- ProfileView.get_context_data, reduced to the post list it paginates: the
profile user's posts; when `request.user != profile_user` they are filtered
by `is_published=True, pub_date__lte=now` (note: no category condition);
ordered by `pub_date` descending. -/
def ProfileView.page_posts (db : DB) (viewer : Viewer) (now : Int)
    (profile : User) : List Post :=
  let posts := db.posts.filter (fun p => p.author == profile.id)
  let posts :=
    if viewer.equalsUser profile then posts
    else posts.filter (fun p => p.is_published && decide (p.pub_date ≤ now))
  orderByPubDateDesc posts

/-- Outcome of dispatching a mutation request. -/
inductive Outcome where
  | notFound : Outcome
  | redirectLogin : Outcome
  | redirectPostDetail : Nat → Outcome
  | redirectProfile : String → Outcome
  | proceed : Outcome
deriving DecidableEq, Repr

/-- PostUpdateView.dispatch: the overridden `dispatch` runs first in the
method-resolution order: it fetches the post (404 if absent) and redirects
any viewer other than the author to the post's detail page; only then does
`super().dispatch` reach `LoginRequiredMixin`, which sends an unauthenticated
viewer to login. -/
def PostUpdateView.dispatch (db : DB) (viewer : Viewer) (post_id : Nat) :
    Outcome :=
  match db.posts.find? (fun p => p.id == post_id) with
  | none => .notFound
  | some inst =>
    if !(viewer.isUser inst.author) then .redirectPostDetail post_id
    else
      match viewer with
      | .anonymous => .redirectLogin
      | .authenticated _ => .proceed

/-- PostDeleteView.dispatch: identical structure to `PostUpdateView.dispatch`. -/
def PostDeleteView.dispatch (db : DB) (viewer : Viewer) (post_id : Nat) :
    Outcome :=
  match db.posts.find? (fun p => p.id == post_id) with
  | none => .notFound
  | some inst =>
    if !(viewer.isUser inst.author) then .redirectPostDetail post_id
    else
      match viewer with
      | .anonymous => .redirectLogin
      | .authenticated _ => .proceed

/-- CommentUpdateView, dispatch plus the effect of a successful submission:
the overridden `dispatch` fetches the comment (404 if absent) and redirects
any viewer other than the comment's author to the parent post's detail page
with the store untouched; then `LoginRequiredMixin` sends an unauthenticated
viewer to login; an allowed request updates the comment's text. -/
def CommentUpdateView.run (db : DB) (viewer : Viewer) (comment_id : Nat)
    (newText : String) : Outcome × DB :=
  match db.comments.find? (fun c => c.id == comment_id) with
  | none => (.notFound, db)
  | some inst =>
    if !(viewer.isUser inst.author) then (.redirectPostDetail inst.postId, db)
    else
      match viewer with
      | .anonymous => (.redirectLogin, db)
      | .authenticated _ =>
        (.proceed,
         { db with comments :=
            db.comments.map fun c =>
              if c.id == comment_id then { c with text := newText } else c })

/-- CommentDeleteView, dispatch plus the effect of a successful submission:
same authorization as `CommentUpdateView.run`; an allowed request removes the
comment. -/
def CommentDeleteView.run (db : DB) (viewer : Viewer) (comment_id : Nat) :
    Outcome × DB :=
  match db.comments.find? (fun c => c.id == comment_id) with
  | none => (.notFound, db)
  | some inst =>
    if !(viewer.isUser inst.author) then (.redirectPostDetail inst.postId, db)
    else
      match viewer with
      | .anonymous => (.redirectLogin, db)
      | .authenticated _ =>
        (.proceed,
         { db with comments := db.comments.filter (fun c => !(c.id == comment_id)) })

/-- ProfileUpdateView: `LoginRequiredMixin` (unauthenticated) and
`UserPassesTestMixin` (failing `test_func`, i.e.
`request.user.username == kwargs['username']`) both call the overridden
`handle_no_permission`, which redirects to the requested username's profile
page. -/
def ProfileUpdateView.dispatch (viewer : Viewer) (username : String) :
    Outcome :=
  match viewer with
  | .anonymous => .redirectProfile username
  | .authenticated u =>
    if u.username == username then .proceed
    else .redirectProfile username

/-- PostCreateView.form_valid: `form.instance.author = self.request.user`
before saving — the stored post is the form's instance with the author field
forced to the authenticated principal. -/
def PostCreateView.form_valid (principal : User) (inst : Post) : Post :=
  { inst with author := principal.id }

/-- The comment record stored by CommentCreateView.form_valid:
`form.instance.author = self.request.user; form.instance.post = post`. -/
def CommentCreateView.savedComment (principal : User) (post : Post)
    (inst : Comment) : Comment :=
  { inst with author := principal.id, postId := post.id }

/-- CommentCreateView.form_valid: `get_object_or_404(Post,
pk=self.kwargs['post_id'])` — no visibility condition — then save the comment
with author and post forced; `none` is the 404 outcome for a missing post. -/
def CommentCreateView.form_valid (db : DB) (principal : User) (post_id : Nat)
    (inst : Comment) : Option DB :=
  match db.posts.find? (fun p => p.id == post_id) with
  | none => none
  | some post =>
    some { db with comments :=
      db.comments ++ [CommentCreateView.savedComment principal post inst] }

/-! Helper lemmas -/

theorem mem_insertByDateDesc {p a : Post} {l : List Post} :
    a ∈ insertByDateDesc p l ↔ a = p ∨ a ∈ l := by
  induction l with
  | nil => simp [insertByDateDesc]
  | cons q rest ih =>
    simp only [insertByDateDesc]
    split
    · simp [List.mem_cons]
    · simp only [List.mem_cons, ih]
      tauto

theorem mem_orderByPubDateDesc {a : Post} {l : List Post} :
    a ∈ orderByPubDateDesc l ↔ a ∈ l := by
  induction l with
  | nil => simp [orderByPubDateDesc]
  | cons q rest ih =>
    show a ∈ insertByDateDesc q (orderByPubDateDesc rest) ↔ _
    rw [mem_insertByDateDesc, ih]
    exact (List.mem_cons).symm

theorem find_unique_key {α β : Type} [BEq β] [LawfulBEq β] {key : α → β}
    {l : List α} {p : α} (hu : l.Pairwise (fun a b => key a ≠ key b))
    (hp : p ∈ l) :
    l.find? (fun q => key q == key p) = some p := by
  induction l with
  | nil => cases hp
  | cons a rest ih =>
    rcases List.mem_cons.mp hp with h | h
    · subst h
      exact List.find?_cons_of_pos _ (by simp)
    · have hne : key a ≠ key p := (List.pairwise_cons.mp hu).1 p h
      rw [List.find?_cons_of_neg _ (by simp [hne])]
      exact ih (List.pairwise_cons.mp hu).2 h

theorem find_unique_filter {α β : Type} [BEq β] [LawfulBEq β] {key : α → β}
    (f : α → Bool) {l : List α} {p : α}
    (hu : l.Pairwise (fun a b => key a ≠ key b)) (hp : p ∈ l) :
    l.find? (fun q => key q == key p && f q) = if f p then some p else none := by
  induction l with
  | nil => cases hp
  | cons a rest ih =>
    rcases List.mem_cons.mp hp with h | h
    · subst h
      by_cases hf : f p
      · rw [List.find?_cons_of_pos _ (by simp [hf])]
        simp [hf]
      · rw [List.find?_cons_of_neg _ (by simp [hf]), if_neg hf]
        rw [List.find?_eq_none.mpr]
        intro q hq
        have hne : key p ≠ key q := (List.pairwise_cons.mp hu).1 q hq
        simp only [Bool.and_eq_true, beq_iff_eq, not_and]
        intro hkey _
        exact hne hkey.symm
    · have hne : key a ≠ key p := (List.pairwise_cons.mp hu).1 p h
      rw [List.find?_cons_of_neg _ (by simp [hne])]
      exact ih (List.pairwise_cons.mp hu).2 h

/-! Claim C1 -/

/-- Concrete store realizing the spec's scenario: a published post with a
null category and a past publish date, with no categories on file. -/
def nullCatPost : Post :=
  { id := 1, author := 0, categoryId := none, is_published := true,
    pub_date := 0, title := "t", text := "x" }

/-- Store holding only `nullCatPost`. -/
def nullCatDB : DB :=
  { posts := [nullCatPost], categories := [], comments := [] }

/-- C1, counterexample: the published, timely post with a null category
satisfies the spec's visibility predicate, yet the coded filter rejects it —
it is excluded from the index listing and `post_detail` answers 404. -/
theorem C1_counterexample :
    is_publicly_visible_spec nullCatDB 1 nullCatPost = true ∧
    publicFilter nullCatDB 1 nullCatPost = false ∧
    nullCatPost ∉ IndexView.get_queryset nullCatDB 1 ∧
    post_detail nullCatDB 1 1 = none := by
  decide

/-- C1, amended: the public-visibility decision used by the listing and the
detail operations is true iff the post is published AND its category
reference is non-null and resolves to a published category AND
`pub_date ≤ now`; membership in the index listing and success of
`post_detail` both coincide with that decision (so a null-category post is
never publicly visible). -/
theorem C1_public_visibility (db : DB) (now : Int) (p : Post)
    (hids : db.postsOk) (hp : p ∈ db.posts) :
    (publicFilter db now p = true ↔
      (p.is_published = true ∧
        (∃ cid c, p.categoryId = some cid ∧ db.findCategory cid = some c ∧
          c.is_published = true) ∧
        p.pub_date ≤ now)) ∧
    (p ∈ IndexView.get_queryset db now ↔ publicFilter db now p = true) ∧
    (post_detail db now p.id = some p ↔ publicFilter db now p = true) := by
  refine ⟨?_, ?_, ?_⟩
  · cases hcid : p.categoryId with
    | none => simp [publicFilter, categoryPublished, hcid]
    | some cid =>
      cases hf : db.findCategory cid with
      | none => simp [publicFilter, categoryPublished, hcid, hf]
      | some c =>
        simp [publicFilter, categoryPublished, hcid, hf, and_assoc]
  · unfold IndexView.get_queryset
    rw [mem_orderByPubDateDesc, List.mem_filter]
    simp [hp]
  · unfold post_detail
    rw [find_unique_filter (publicFilter db now) hids hp]
    by_cases h : publicFilter db now p = true
    · simp [h]
    · simp only [Bool.not_eq_true] at h
      simp [h]

/-- A post inside a published category, for instantiating C1's amendment. -/
def pubCatPost : Post :=
  { id := 2, author := 0, categoryId := some 5, is_published := true,
    pub_date := 0, title := "t", text := "x" }

/-- Store holding `pubCatPost` and its published category. -/
def pubCatDB : DB :=
  { posts := [pubCatPost],
    categories := [{ id := 5, slug := "s", is_published := true }],
    comments := [] }

/-- C1, witness: the amended visibility characterization at a concrete store. -/
theorem C1_public_visibility_witness :
    pubCatDB.postsOk ∧ pubCatPost ∈ pubCatDB.posts ∧
    ((pubCatPost ∈ IndexView.get_queryset pubCatDB 1 ↔
        publicFilter pubCatDB 1 pubCatPost = true) ∧
      (post_detail pubCatDB 1 pubCatPost.id = some pubCatPost ↔
        publicFilter pubCatDB 1 pubCatPost = true)) :=
  ⟨by decide, by decide,
    (C1_public_visibility pubCatDB 1 pubCatPost (by decide) (by decide)).2⟩

/-! Claim C2 -/

/-- C2: PostDetailView.get_object resolves a stored post for its
authenticated author unconditionally — no assumption on `is_published`, the
category, or `pub_date` — while every other viewer receives 404 whenever the
public-visibility filter is false for the post. -/
theorem C2_resolve_post_for_viewer (db : DB) (now : Int) (p : Post) (u : User)
    (hids : db.postsOk) (hp : p ∈ db.posts) :
    (u.id = p.author →
      PostDetailView.get_object db (.authenticated u) now p.id = some p) ∧
    (∀ viewer : Viewer, viewer.isUser p.author = false →
      publicFilter db now p = false →
      PostDetailView.get_object db viewer now p.id = none) := by
  have hfind : db.posts.find? (fun q => q.id == p.id) = some p :=
    find_unique_key hids hp
  constructor
  · intro hu
    unfold PostDetailView.get_object
    rw [hfind]
    simp [Viewer.isUser, hu]
  · intro viewer hv hvis
    unfold PostDetailView.get_object
    rw [hfind]
    simp only [hv, Bool.not_false, if_true]
    rw [find_unique_filter (publicFilter db now) hids hp, hvis]
    simp

/-- A draft: unpublished, future-dated, no category. -/
def draftPost : Post :=
  { id := 3, author := 7, categoryId := none, is_published := false,
    pub_date := 100, title := "t", text := "x" }

/-- Store holding only `draftPost`. -/
def draftDB : DB :=
  { posts := [draftPost], categories := [], comments := [] }

/-- The author of `draftPost`. -/
def draftAuthor : User := { id := 7, username := "a" }

/-- C2, witness: the author retrieves their invisible draft; an anonymous
viewer gets 404 on it. -/
theorem C2_resolve_post_for_viewer_witness :
    draftDB.postsOk ∧ draftPost ∈ draftDB.posts ∧
    draftAuthor.id = draftPost.author ∧
    publicFilter draftDB 1 draftPost = false ∧
    PostDetailView.get_object draftDB (.authenticated draftAuthor) 1
      draftPost.id = some draftPost ∧
    PostDetailView.get_object draftDB .anonymous 1 draftPost.id = none :=
  ⟨by decide, by decide, by decide, by decide,
    (C2_resolve_post_for_viewer draftDB 1 draftPost draftAuthor
      (by decide) (by decide)).1 (by decide),
    (C2_resolve_post_for_viewer draftDB 1 draftPost draftAuthor
      (by decide) (by decide)).2 .anonymous (by decide) (by decide)⟩

/-! Claim C3 -/

/-- An unpublished category. -/
def hiddenCat : Category := { id := 9, slug := "h", is_published := false }

/-- A published, timely post filed under the unpublished category. -/
def hiddenCatPost : Post :=
  { id := 4, author := 1, categoryId := some 9, is_published := true,
    pub_date := 0, title := "t", text := "x" }

/-- The profile owner. -/
def profAlice : User := { id := 1, username := "alice" }

/-- A different authenticated viewer. -/
def profBob : User := { id := 2, username := "bob" }

/-- Store holding `hiddenCatPost` and its unpublished category. -/
def hiddenCatDB : DB :=
  { posts := [hiddenCatPost], categories := [hiddenCat], comments := [] }

/-- C3, counterexample: a post in an unpublished category — hence not
publicly visible — still appears in the profile listing shown to a non-owner
viewer, because ProfileView's filter never consults the category. -/
theorem C3_counterexample :
    publicFilter hiddenCatDB 1 hiddenCatPost = false ∧
    hiddenCatPost ∈
      ProfileView.page_posts hiddenCatDB (.authenticated profBob) 1 profAlice := by
  decide

/-- C3, amended: the profile listing contains exactly the profile owner's
posts, restricted — only when the viewer is not the owner — by
`is_published = true` and `pub_date ≤ now`; the published state of the
post's category is not checked for any viewer, and the owner sees all own
posts unfiltered. -/
theorem C3_profile_listing (db : DB) (viewer : Viewer) (now : Int)
    (profile : User) (p : Post) :
    p ∈ ProfileView.page_posts db viewer now profile ↔
      (p ∈ db.posts ∧ p.author = profile.id ∧
        (viewer.equalsUser profile = true ∨
          (p.is_published = true ∧ p.pub_date ≤ now))) := by
  unfold ProfileView.page_posts
  rw [mem_orderByPubDateDesc]
  by_cases hv : viewer.equalsUser profile
  · rw [if_pos hv, List.mem_filter]
    simp [hv]
  · rw [if_neg hv, List.mem_filter, List.mem_filter]
    simp only [Bool.not_eq_true] at hv
    simp [hv, and_assoc]

/-! Claim C4 -/

/-- A post owned by user 1 with a comment by user 1. -/
def ownedPost : Post :=
  { id := 7, author := 1, categoryId := none, is_published := true,
    pub_date := 0, title := "t", text := "x" }

/-- A comment on `ownedPost` by its author. -/
def ownedComment : Comment := { id := 11, author := 1, postId := 7, text := "c" }

/-- Store holding `ownedPost` and `ownedComment`. -/
def ownedDB : DB :=
  { posts := [ownedPost], categories := [], comments := [ownedComment] }

/-- C4, counterexample: an unauthenticated update attempt on an existing post
is redirected to the post's detail page, not to login — the overridden
`dispatch` compares author to the anonymous viewer before
`LoginRequiredMixin` ever runs. -/
theorem C4_counterexample :
    PostUpdateView.dispatch ownedDB .anonymous 7 = .redirectPostDetail 7 ∧
    PostUpdateView.dispatch ownedDB .anonymous 7 ≠ .redirectLogin := by
  decide

/-- C4, amended: for every existing post and comment, an unauthenticated
update or delete attempt is denied with a redirect to the (parent) post's
detail page — never to the login view, which is unreachable in these views —
and the store is left unchanged. -/
theorem C4_unauthenticated_mutation (db : DB) (p : Post) (c : Comment)
    (t : String) (hpids : db.postsOk) (hcids : db.commentsOk)
    (hp : p ∈ db.posts) (hc : c ∈ db.comments) :
    PostUpdateView.dispatch db .anonymous p.id = .redirectPostDetail p.id ∧
    PostDeleteView.dispatch db .anonymous p.id = .redirectPostDetail p.id ∧
    CommentUpdateView.run db .anonymous c.id t =
      (.redirectPostDetail c.postId, db) ∧
    CommentDeleteView.run db .anonymous c.id =
      (.redirectPostDetail c.postId, db) := by
  have hfp : db.posts.find? (fun q => q.id == p.id) = some p :=
    find_unique_key hpids hp
  have hfc : db.comments.find? (fun q => q.id == c.id) = some c :=
    find_unique_key hcids hc
  refine ⟨?_, ?_, ?_, ?_⟩ <;>
    simp [PostUpdateView.dispatch, PostDeleteView.dispatch,
      CommentUpdateView.run, CommentDeleteView.run, hfp, hfc, Viewer.isUser]

/-- C4, witness: the amended redirects at the concrete store. -/
theorem C4_unauthenticated_mutation_witness :
    ownedDB.postsOk ∧ ownedDB.commentsOk ∧
    ownedPost ∈ ownedDB.posts ∧ ownedComment ∈ ownedDB.comments ∧
    (PostUpdateView.dispatch ownedDB .anonymous ownedPost.id =
        .redirectPostDetail ownedPost.id ∧
      PostDeleteView.dispatch ownedDB .anonymous ownedPost.id =
        .redirectPostDetail ownedPost.id ∧
      CommentUpdateView.run ownedDB .anonymous ownedComment.id "z" =
        (.redirectPostDetail ownedComment.postId, ownedDB) ∧
      CommentDeleteView.run ownedDB .anonymous ownedComment.id =
        (.redirectPostDetail ownedComment.postId, ownedDB)) :=
  ⟨by decide, by decide, by decide, by decide,
    C4_unauthenticated_mutation ownedDB ownedPost ownedComment "z"
      (by decide) (by decide) (by decide) (by decide)⟩

/-! Claim C5 -/

/-- C5: the category listing answers 404 when no category carries the slug
and when the slug's category is unpublished — with no regard to the posts it
contains — and for a published category returns exactly the publicly visible
posts scoped to it, ordered by publish date descending. -/
theorem C5_category_listing (db : DB) (now : Int) (slug : String)
    (hcat : db.categoriesOk) :
    category_posts db now slug =
      match db.categories.find? (fun c => c.slug == slug) with
      | none => none
      | some c =>
        if c.is_published then
          some (c, orderByPubDateDesc (db.posts.filter
            (fun p => p.categoryId == some c.id && publicFilter db now p)))
        else none := by
  cases hfs : db.categories.find? (fun c => c.slug == slug) with
  | none =>
    have hall := List.find?_eq_none.mp hfs
    unfold category_posts
    rw [List.find?_eq_none.mpr]
    intro d hd
    have := hall d hd
    simp only [Bool.and_eq_true, not_and]
    intro hslug
    exact absurd hslug this
  | some c =>
    have hc : c ∈ db.categories := List.mem_of_find?_eq_some hfs
    have hcslug : c.slug = slug := by
      have := List.find?_some hfs
      simpa using this
    subst hcslug
    unfold category_posts
    rw [find_unique_filter Category.is_published hcat.2 hc]
    by_cases hpub : c.is_published
    · rw [if_pos hpub]
      simp only []
      have hfindc : db.findCategory c.id = some c :=
        find_unique_key hcat.1 hc
      have hfilter : db.posts.filter
          (fun p => p.categoryId == some c.id
            && p.is_published && decide (p.pub_date ≤ now)) =
          db.posts.filter
            (fun p => p.categoryId == some c.id && publicFilter db now p) := by
        apply List.filter_congr
        intro q _
        by_cases hcq : q.categoryId = some c.id
        · simp [publicFilter, categoryPublished, hcq, hfindc, hpub,
            Bool.and_assoc]
        · have hfq : (q.categoryId == some c.id) = false := by
            simp [hcq]
          simp [hfq]
      rw [if_pos hpub, hfilter]
    · rw [if_neg hpub]
      simp only []
      rw [if_neg hpub]

/-- A published category holding one eligible and one future-dated post. -/
def openCat : Category := { id := 3, slug := "open", is_published := true }

/-- An eligible post in `openCat`. -/
def openPost : Post :=
  { id := 21, author := 1, categoryId := some 3, is_published := true,
    pub_date := 0, title := "t", text := "x" }

/-- A future-dated post in `openCat`. -/
def futurePost : Post :=
  { id := 22, author := 1, categoryId := some 3, is_published := true,
    pub_date := 50, title := "t", text := "x" }

/-- Store holding `openCat` and its two posts. -/
def openCatDB : DB :=
  { posts := [openPost, futurePost], categories := [openCat], comments := [] }

/-- C5, witness: the listing of the published category at `now = 1` contains
exactly the eligible post. -/
theorem C5_category_listing_witness :
    openCatDB.categoriesOk ∧
    category_posts openCatDB 1 "open" =
      match openCatDB.categories.find? (fun c => c.slug == "open") with
      | none => none
      | some c =>
        if c.is_published then
          some (c, orderByPubDateDesc (openCatDB.posts.filter
            (fun p => p.categoryId == some c.id && publicFilter openCatDB 1 p)))
        else none :=
  ⟨by decide, C5_category_listing openCatDB 1 "open" (by decide)⟩

/-! Claim C6 -/

/-- C6: profile editing proceeds precisely when the authenticated viewer's
username equals the username path parameter; any authenticated mismatch is
redirected to the requested username's profile page, and an anonymous viewer
is never allowed to proceed. -/
theorem C6_profile_edit_access (u : User) (username : String) :
    (ProfileUpdateView.dispatch (.authenticated u) username = .proceed ↔
      u.username = username) ∧
    (ProfileUpdateView.dispatch (.authenticated u) username =
        .redirectProfile username ↔ u.username ≠ username) ∧
    ProfileUpdateView.dispatch .anonymous username ≠ .proceed := by
  by_cases h : u.username = username <;>
    simp [ProfileUpdateView.dispatch, h]

/-! Claim C7 -/

/-- C7: a comment mutation attempted by an authenticated viewer who is not
the comment's author is rejected at dispatch — before any form is shown —
with a redirect to the parent post's detail page, and the store (the comment
included) is unchanged. -/
theorem C7_comment_mutation_by_non_author (db : DB) (u : User) (c : Comment)
    (t : String) (hcids : db.commentsOk) (hc : c ∈ db.comments)
    (hu : u.id ≠ c.author) :
    CommentUpdateView.run db (.authenticated u) c.id t =
      (.redirectPostDetail c.postId, db) ∧
    CommentDeleteView.run db (.authenticated u) c.id =
      (.redirectPostDetail c.postId, db) := by
  have hfc : db.comments.find? (fun q => q.id == c.id) = some c :=
    find_unique_key hcids hc
  have hv : Viewer.isUser (.authenticated u) c.author = false := by
    simp [Viewer.isUser, hu]
  constructor <;>
    simp [CommentUpdateView.run, CommentDeleteView.run, hfc, hv]

/-- A comment authored by user 1 on post 7. -/
def u1Comment : Comment := { id := 31, author := 1, postId := 7, text := "c" }

/-- Store holding only `u1Comment`. -/
def u1CommentDB : DB :=
  { posts := [], categories := [], comments := [u1Comment] }

/-- A second authenticated user, not the comment's author. -/
def otherUser : User := { id := 2, username := "u2" }

/-- C7, witness: user 2's update and delete attempts on user 1's comment at
the concrete store. -/
theorem C7_comment_mutation_by_non_author_witness :
    u1CommentDB.commentsOk ∧ u1Comment ∈ u1CommentDB.comments ∧
    otherUser.id ≠ u1Comment.author ∧
    (CommentUpdateView.run u1CommentDB (.authenticated otherUser)
        u1Comment.id "z" = (.redirectPostDetail u1Comment.postId, u1CommentDB) ∧
      CommentDeleteView.run u1CommentDB (.authenticated otherUser)
        u1Comment.id = (.redirectPostDetail u1Comment.postId, u1CommentDB)) :=
  ⟨by decide, by decide, by decide,
    C7_comment_mutation_by_non_author u1CommentDB otherUser u1Comment "z"
      (by decide) (by decide) (by decide)⟩

/-! Claim C8 -/

/-- C8: creation stamps authorship from the authenticated principal — the
stored author field equals the principal's identity, and two create requests
differing only in the client-supplied author value store identical records. -/
theorem C8_author_stamping (principal : User) (p : Post) (post : Post)
    (c : Comment) (a1 a2 : Nat) :
    PostCreateView.form_valid principal { p with author := a1 } =
      PostCreateView.form_valid principal { p with author := a2 } ∧
    (PostCreateView.form_valid principal p).author = principal.id ∧
    CommentCreateView.savedComment principal post { c with author := a1 } =
      CommentCreateView.savedComment principal post { c with author := a2 } ∧
    (CommentCreateView.savedComment principal post c).author = principal.id := by
  simp [PostCreateView.form_valid, CommentCreateView.savedComment]

/-! Claim C9 -/

/-- C9: comment creation checks only existence of the target post, not
visibility: for any stored post — no publication, category, or timeliness
assumption — the comment is saved and attached to that post, while a post id
matching no stored post yields 404. -/
theorem C9_comment_creation_no_visibility_check (db : DB) (principal : User)
    (p : Post) (inst : Comment) (pid : Nat) (hids : db.postsOk)
    (hp : p ∈ db.posts) (hnone : ∀ q ∈ db.posts, q.id ≠ pid) :
    CommentCreateView.form_valid db principal p.id inst =
      some { db with comments :=
        db.comments ++ [CommentCreateView.savedComment principal p inst] } ∧
    (CommentCreateView.savedComment principal p inst).postId = p.id ∧
    CommentCreateView.form_valid db principal pid inst = none := by
  have hfp : db.posts.find? (fun q => q.id == p.id) = some p :=
    find_unique_key hids hp
  refine ⟨?_, ?_, ?_⟩
  · simp [CommentCreateView.form_valid, hfp]
  · simp [CommentCreateView.savedComment]
  · have hnf : db.posts.find? (fun q => q.id == pid) = none :=
      List.find?_eq_none.mpr (fun q hq => by simp [hnone q hq])
    simp [CommentCreateView.form_valid, hnf]

/-- An invisible post: unpublished, future-dated, in an unpublished category. -/
def invisiblePost : Post :=
  { id := 40, author := 1, categoryId := some 9, is_published := false,
    pub_date := 100, title := "t", text := "x" }

/-- Store holding `invisiblePost` and its unpublished category. -/
def invisibleDB : DB :=
  { posts := [invisiblePost], categories := [hiddenCat], comments := [] }

/-- A commenting principal. -/
def commenter : User := { id := 5, username := "c" }

/-- A comment form instance before authorship and post stamping. -/
def rawComment : Comment := { id := 41, author := 99, postId := 0, text := "hi" }

/-- C9, witness: commenting succeeds on the invisible post and fails on a
missing post id. -/
theorem C9_comment_creation_no_visibility_check_witness :
    invisibleDB.postsOk ∧ invisiblePost ∈ invisibleDB.posts ∧
    (∀ q ∈ invisibleDB.posts, q.id ≠ 77) ∧
    publicFilter invisibleDB 1 invisiblePost = false ∧
    (CommentCreateView.form_valid invisibleDB commenter invisiblePost.id
        rawComment =
      some { invisibleDB with comments := invisibleDB.comments ++
        [CommentCreateView.savedComment commenter invisiblePost rawComment] } ∧
      (CommentCreateView.savedComment commenter invisiblePost rawComment).postId
        = invisiblePost.id ∧
      CommentCreateView.form_valid invisibleDB commenter 77 rawComment = none) :=
  ⟨by decide, by decide, by decide, by decide,
    C9_comment_creation_no_visibility_check invisibleDB commenter
      invisiblePost rawComment 77 (by decide) (by decide) (by decide)⟩

/-! Claim C10 -/

/-- C10: an unauthenticated profile-edit request is not redirected to login;
the shared denial handler sends it to the requested username's profile page. -/
theorem C10_profile_edit_anonymous (username : String) :
    ProfileUpdateView.dispatch .anonymous username =
      .redirectProfile username ∧
    ProfileUpdateView.dispatch .anonymous username ≠ .redirectLogin := by
  simp [ProfileUpdateView.dispatch]

end Blogicum
